import Mathlib

/-!
Verification of the `dkubiak789/patterns` abstract-factory sources.

Two Python files are embedded:

* `src/abstract_factory.py` — a flat factory: the class `QueryRunnerFactory`
  with `get_query_runner`, dispatching over an if/elif chain to
  `MongoDBQueryRunner` (returns 1), `MySQLQueryRunner` (returns 2) and
  `BigQueryQueryRunner` (returns 3), raising
  `ValueError("Invalid query runner name: {name}.")` otherwise.

* `src/abstract_factory/abstract_factory.py` — the registry-based factory:
  the class `AbstractFactory` with the class-level dict `_runners`
  (initially mongodb/mysql/bigquery), `_load_external_runners` (plugin
  discovery over entry points with a per-entry try/except),
  `get_dao` (dict lookup; `ValueError("Unknown query runner: {name}")` on a
  miss; otherwise calls the registered class), and the classmethod
  `register_runner` (raises `TypeError` unless
  `issubclass(runner_class, QueryRunner)`, then overwrites the dict entry).

Modelling conventions: Python exceptions become the `PyError` sum and
fallible code returns `Except PyError α`; a Python class value stored in
the registry becomes a `PyClass` record carrying the outcome of the
`issubclass(·, QueryRunner)` test and the outcome of calling the class with
no arguments (which in Python may itself raise, e.g. for an abstract
subclass); the registry dict becomes a total function
`String → Option PyClass` with pointwise update; a runner instance's
`get_number(configuration)` returns the numeric result paired with the
final state of the (mutable, by-reference) configuration dict, so that
non-mutation of the configuration is an equation rather than an assumption;
Python object identity is tracked, where a claim needs it, by threading an
allocation counter through construction.
-/

/-- JSON-like values appearing in a configuration dictionary. -/
inductive JsonValue where
  | str (s : String)
  | num (n : Int)
  | jbool (b : Bool)
  | jnull
deriving DecidableEq

/-- A configuration dictionary: string keys with JSON-like values.
The sources never inspect its contents. -/
abbrev Config := List (String × JsonValue)

/-- The Python exception kinds raised anywhere in the two source files. -/
inductive PyError where
  | valueError (msg : String)
  | typeError (msg : String)
deriving DecidableEq

/-- A runner instance: its one capability is `get_number(configuration)`,
a call that may raise and that returns the numeric result together with
the configuration dict's state after the call (the sources never mutate
it, which the theorems make explicit). -/
structure Runner where
  get_number : Config → Except PyError (Int × Config)

/-- A Python class value as stored in the registry: the outcome of
`issubclass(cls, QueryRunner)` and the outcome of the zero-argument call
`cls()`. Calling a class can raise in Python (for example an abstract
subclass of `QueryRunner` that does not override `get_number` raises
`TypeError` at construction), hence the `Except`. -/
structure PyClass where
  isSubclassOfQueryRunner : Bool
  construct : Except PyError Runner

/-- The registry type of `AbstractFactory._runners`: a Python dict from
runner name to class, embedded as its lookup function. -/
abbrev Registry := String → Option PyClass

/-- Python dict item assignment `d[k] = v`: overwrite the entry for `k`,
leave every other key unchanged. -/
def dictSet (k : String) (v : PyClass) (r : Registry) : Registry :=
  fun n => if n = k then some v else r n

/-! ## Embedding of src/abstract_factory.py (the flat factory) -/

/-- Instance behaviour of `MongoDBQueryRunner` (flat file): `get_number`
returns 1 and does not touch the configuration. -/
def MongoDBQueryRunnerInst : Runner :=
  { get_number := fun configuration => .ok (1, configuration) }

/-- Instance behaviour of `MySQLQueryRunner` (flat file): `get_number`
returns 2 and does not touch the configuration. -/
def MySQLQueryRunnerInst : Runner :=
  { get_number := fun configuration => .ok (2, configuration) }

/-- Instance behaviour of `BigQueryQueryRunner` (flat file): `get_number`
returns 3 and does not touch the configuration. -/
def BigQueryQueryRunnerInst : Runner :=
  { get_number := fun configuration => .ok (3, configuration) }

/-- Translation of `QueryRunnerFactory.get_query_runner` (flat file):
an if/elif chain over the three fixed names, raising
`ValueError("Invalid query runner name: {name}.")` otherwise. -/
def get_query_runner (name : String) : Except PyError Runner :=
  if name = "mongodb" then .ok MongoDBQueryRunnerInst
  else if name = "mysql" then .ok MySQLQueryRunnerInst
  else if name = "bigquery" then .ok BigQueryQueryRunnerInst
  else .error (.valueError ("Invalid query runner name: " ++ name ++ "."))

/-! ## Embedding of src/abstract_factory/abstract_factory.py -/

/-- Instance behaviour of `MongoDBRunner`: `get_number` returns the
constant 1, configuration untouched. -/
def mongoDBRunnerInst : Runner :=
  { get_number := fun configuration => .ok (1, configuration) }

/-- Instance behaviour of `MySQLRunner`: `get_number` returns the
constant 2, configuration untouched. -/
def mySQLRunnerInst : Runner :=
  { get_number := fun configuration => .ok (2, configuration) }

/-- Instance behaviour of `BigQueryRunner`: `get_number` returns the
constant 3, configuration untouched. -/
def bigQueryRunnerInst : Runner :=
  { get_number := fun configuration => .ok (3, configuration) }

/-- The class `MongoDBRunner`: a concrete subclass of `QueryRunner` whose
zero-argument construction always succeeds. -/
def MongoDBRunner : PyClass :=
  { isSubclassOfQueryRunner := true, construct := .ok mongoDBRunnerInst }

/-- The class `MySQLRunner`. -/
def MySQLRunner : PyClass :=
  { isSubclassOfQueryRunner := true, construct := .ok mySQLRunnerInst }

/-- The class `BigQueryRunner`. -/
def BigQueryRunner : PyClass :=
  { isSubclassOfQueryRunner := true, construct := .ok bigQueryRunnerInst }

/-- The initial value of the class attribute `AbstractFactory._runners`:
the static registry `{"mongodb": MongoDBRunner, "mysql": MySQLRunner,
"bigquery": BigQueryRunner}`. -/
def defaultRunners : Registry := fun n =>
  if n = "mongodb" then some MongoDBRunner
  else if n = "mysql" then some MySQLRunner
  else if n = "bigquery" then some BigQueryRunner
  else none

/-- The error raised by `get_dao` on an unregistered name:
`ValueError(f"Unknown query runner: {runner_name}")`. This is the
spec's `UnknownBackend(name)` error kind. -/
def UnknownBackend (name : String) : PyError :=
  .valueError ("Unknown query runner: " ++ name)

/-- The error raised by `register_runner` on a class failing the
`issubclass` test: `TypeError("Runner class must inherit from
QueryRunner")`. This is the spec's `TypeMismatch` error kind. -/
def TypeMismatch : PyError :=
  .typeError "Runner class must inherit from QueryRunner"

/-- Translation of `AbstractFactory.get_dao`: look the name up with
`self._runners.get(runner_name)`; on `None` raise
`ValueError(f"Unknown query runner: {runner_name}")`; otherwise call the
registered class (`return runner_class()`), propagating any exception the
call raises. -/
def get_dao (runners : Registry) (runner_name : String) : Except PyError Runner :=
  match runners runner_name with
  | none => .error (UnknownBackend runner_name)
  | some runner_class => runner_class.construct

/-- Translation of the classmethod `AbstractFactory.register_runner`:
raise `TypeError` unless `issubclass(runner_class, QueryRunner)`, then
overwrite `cls._runners[name]`. On success the new registry is returned;
on failure the raise prevents any mutation. -/
def register_runner (runners : Registry) (name : String) (runner_class : PyClass) :
    Except PyError Registry :=
  if !runner_class.isSubclassOfQueryRunner then
    .error (.typeError "Runner class must inherit from QueryRunner")
  else
    .ok (dictSet name runner_class runners)

/-- One advertised plugin in the `query_runners` entry-point group:
its declared name and the outcome of `entry_point.load()` (which may
raise — a broken plugin). -/
structure EntryPoint where
  name : String
  load : Except PyError PyClass

/-- The body of one iteration of `_load_external_runners`, before the
surrounding `try/except`: `runner_class = entry_point.load()` (may raise),
then `if issubclass(runner_class, QueryRunner):
self._runners[entry_point.name] = runner_class` (a non-subclass is
silently skipped). -/
def loadOneEntryPoint (runners : Registry) (ep : EntryPoint) : Except PyError Registry :=
  match ep.load with
  | .error e => .error e
  | .ok runner_class =>
    if runner_class.isSubclassOfQueryRunner then
      .ok (dictSet ep.name runner_class runners)
    else
      .ok runners

/-- One iteration of the `_load_external_runners` loop including its
`except Exception` handler: a raise inside the body is caught (the error
is only printed) and the registry is left as it was. -/
def epStep (runners : Registry) (ep : EntryPoint) : Registry :=
  match loadOneEntryPoint runners ep with
  | .ok r2 => r2
  | .error _ => runners

/-- Translation of `AbstractFactory._load_external_runners`: iterate over
all advertised entry points, loading each under the per-entry
`try/except`. The result is a `Registry`, not an `Except`: no exception
can escape the discovery loop, by the catch in `epStep`. -/
def loadExternalRunners (runners : Registry) (eps : List EntryPoint) : Registry :=
  eps.foldl epStep runners

/-! ## First claims: unknown names, and the constant stub values -/

/-- Claim C1: looking up a name that is not a key of the registry always
fails with the `UnknownBackend(name)` error — `get_dao` never returns a
runner there, never falls back to some default backend, and the error is
a `ValueError` carrying the name, not the unrelated `TypeError` kind.
The flat file's `get_query_runner` likewise fails on any name outside its
three fixed ones, with a `ValueError` carrying the name. -/
theorem c1_unknown_backend (reg : Registry) (name : String)
    (h : reg name = none)
    (h2 : name ≠ "mongodb") (h3 : name ≠ "mysql") (h4 : name ≠ "bigquery") :
    get_dao reg name = .error (UnknownBackend name) ∧
    UnknownBackend name ≠ TypeMismatch ∧
    get_query_runner name =
      .error (.valueError ("Invalid query runner name: " ++ name ++ ".")) := by
  refine ⟨?_, ?_, ?_⟩
  · unfold get_dao
    rw [h]
  · intro hcontra
    exact PyError.noConfusion hcontra
  · unfold get_query_runner
    rw [if_neg h2, if_neg h3, if_neg h4]

/-- Witness for C1 at the concrete unregistered name `"nonexistent"` on
the default registry. -/
theorem c1_unknown_backend_witness :
    get_dao defaultRunners "nonexistent" = .error (UnknownBackend "nonexistent") ∧
    UnknownBackend "nonexistent" ≠ TypeMismatch ∧
    get_query_runner "nonexistent" =
      .error (.valueError ("Invalid query runner name: " ++ "nonexistent" ++ ".")) :=
  c1_unknown_backend defaultRunners "nonexistent" rfl
    (by decide) (by decide) (by decide)

/-- Claim C6: on the default registry, `get_dao "bigquery"` succeeds with
the `BigQueryRunner` instance, and its `get_number` returns exactly 3 for
every configuration, leaving the configuration unchanged; the flat file's
`"bigquery"` runner returns 3 as well. -/
theorem c6_bigquery_returns_three (c : Config) :
    get_dao defaultRunners "bigquery" = .ok bigQueryRunnerInst ∧
    bigQueryRunnerInst.get_number c = .ok (3, c) ∧
    get_query_runner "bigquery" = .ok BigQueryQueryRunnerInst ∧
    BigQueryQueryRunnerInst.get_number c = .ok (3, c) :=
  ⟨rfl, rfl, rfl, rfl⟩

/-- Claim C10: on the default registry, `get_dao "mongodb"` yields the
runner whose `get_number` returns exactly 1 and `get_dao "mysql"` yields
the runner whose `get_number` returns exactly 2, for every configuration,
neither call mutating the configuration; the flat file's mongodb runner
returns 1 likewise. -/
theorem c10_mongodb_mysql_constants (c : Config) :
    get_dao defaultRunners "mongodb" = .ok mongoDBRunnerInst ∧
    mongoDBRunnerInst.get_number c = .ok (1, c) ∧
    get_dao defaultRunners "mysql" = .ok mySQLRunnerInst ∧
    mySQLRunnerInst.get_number c = .ok (2, c) ∧
    MongoDBQueryRunnerInst.get_number c = .ok (1, c) :=
  ⟨rfl, rfl, rfl, rfl, rfl⟩

/-! ## Plugin discovery: characterisation and isolation (claim C3) -/

/-- The class a single entry point contributes, if any: `some c` exactly
when `entry_point.load()` succeeds and the loaded class passes the
`issubclass` test; `none` when the load raises or the test fails. -/
def epClass (ep : EntryPoint) : Option PyClass :=
  match ep.load with
  | .error _ => none
  | .ok runner_class =>
    if runner_class.isSubclassOfQueryRunner then some runner_class else none

/-- A valid plugin entry: it loads and passes the subclass test. -/
def epValid (ep : EntryPoint) : Bool :=
  (epClass ep).isSome

/-- The class contributed for name `n` by the last valid entry point
carrying that name, scanning from the right. -/
def lastValidClass : List EntryPoint → String → Option PyClass
  | [], _ => none
  | ep :: rest, n =>
    match lastValidClass rest n with
    | some c => some c
    | none => if ep.name = n then epClass ep else none

theorem epStep_eq (runners : Registry) (ep : EntryPoint) :
    epStep runners ep =
      match epClass ep with
      | some c => dictSet ep.name c runners
      | none => runners := by
  obtain ⟨nm, ld⟩ := ep
  cases ld with
  | error e => rfl
  | ok cls =>
    cases hsub : cls.isSubclassOfQueryRunner <;>
      simp [epStep, loadOneEntryPoint, epClass, hsub]

/-- Lookup after plugin discovery: for each name, the final registry entry
is the last valid plugin declaring that name, and otherwise exactly the
entry the registry had before discovery. -/
theorem loadExternalRunners_lookup (eps : List EntryPoint) (runners : Registry)
    (n : String) :
    loadExternalRunners runners eps n =
      match lastValidClass eps n with
      | some c => some c
      | none => runners n := by
  induction eps generalizing runners with
  | nil => rfl
  | cons ep rest ih =>
    have hstep : loadExternalRunners runners (ep :: rest) =
        loadExternalRunners (epStep runners ep) rest := rfl
    rw [hstep, ih (epStep runners ep)]
    cases hrest : lastValidClass rest n with
    | some c => simp [lastValidClass, hrest]
    | none =>
      simp only [lastValidClass, hrest]
      rw [epStep_eq]
      cases hc : epClass ep with
      | none =>
        cases hn : decide (ep.name = n) <;> simp_all
      | some c =>
        by_cases hn : ep.name = n
        · simp [hn, dictSet]
        · have hn2 : ¬(n = ep.name) := fun hx => hn hx.symm
          simp [hn, hn2, dictSet]

/-- If every entry point declaring name `n` is broken (fails to load or
fails the subclass test), discovery contributes nothing for `n`. -/
theorem lastValidClass_none (n : String) (eps : List EntryPoint)
    (h : ∀ ep ∈ eps, ep.name = n → epValid ep = false) :
    lastValidClass eps n = none := by
  induction eps with
  | nil => rfl
  | cons ep rest ih =>
    have hrest : lastValidClass rest n = none :=
      ih fun e he hn => h e (List.mem_cons_of_mem ep he) hn
    simp only [lastValidClass, hrest]
    by_cases hn : ep.name = n
    · have hv : epValid ep = false := h ep (List.mem_cons_self ep rest) hn
      have : epClass ep = none := by
        unfold epValid at hv
        exact Option.not_isSome_iff_eq_none.mp (by simp [hv])
      simp [hn, this]
    · simp [hn]

/-- Claim C3: plugin discovery is isolated per plugin. For every sequence
of entry points (broken or valid, in any order) and every initial
registry: the final entry for each name is the class of the last valid
plugin declaring that name, or the pre-discovery entry when no valid
plugin declares it (so every valid entry is registered, a broken entry
never affects the registry, and failures do not stop the iteration); in
particular a name all of whose entries are broken resolves exactly as it
did before discovery. No exception escapes discovery: `loadExternalRunners`
returns a `Registry` for every input, each iteration's exception being
consumed by the `except` handler modelled in `epStep`. -/
theorem c3_plugin_isolation (runners : Registry) (eps : List EntryPoint)
    (n : String) :
    (loadExternalRunners runners eps n =
      match lastValidClass eps n with
      | some c => some c
      | none => runners n) ∧
    ((∀ ep ∈ eps, ep.name = n → epValid ep = false) →
      loadExternalRunners runners eps n = runners n) := by
  refine ⟨loadExternalRunners_lookup eps runners n, fun hall => ?_⟩
  rw [loadExternalRunners_lookup eps runners n, lastValidClass_none n eps hall]

/-- A well-behaved third-party runner instance shipped by a plugin. -/
def pluginRunnerInst : Runner :=
  { get_number := fun configuration => .ok (7, configuration) }

/-- A valid plugin class: subclass of `QueryRunner`, constructible. -/
def PluginRunnerClass : PyClass :=
  { isSubclassOfQueryRunner := true, construct := .ok pluginRunnerInst }

/-- A valid plugin entry point declaring `"goodplugin"`. -/
def validEp : EntryPoint :=
  { name := "goodplugin", load := .ok PluginRunnerClass }

/-- A broken plugin entry point declaring `"badplugin"`: its `load()`
raises. -/
def brokenEp : EntryPoint :=
  { name := "badplugin", load := .error (.typeError "import failed") }

/-- Witness for C3: the spec's scenario of one broken and one valid entry
on the default registry — the valid plugin ends up registered, the broken
one absent. -/
theorem c3_plugin_isolation_witness :
    loadExternalRunners defaultRunners [brokenEp, validEp] "goodplugin" =
      some PluginRunnerClass ∧
    loadExternalRunners defaultRunners [brokenEp, validEp] "badplugin" = none := by
  refine ⟨((c3_plugin_isolation defaultRunners [brokenEp, validEp] "goodplugin").1).trans
      rfl,
    ((c3_plugin_isolation defaultRunners [brokenEp, validEp] "badplugin").2 ?_).trans rfl⟩
  intro ep hm he
  simp only [List.mem_cons, List.not_mem_nil, or_false] at hm
  rcases hm with rfl | rfl
  · rfl
  · exact absurd he (by decide)

/-! ## Registry invariant under all operations (claims C2, C4, C5) -/

/-- The operations that mutate the registry during the life of the
program: an explicit `register_runner(name, cls)` call (whose raised
`TypeError`, if any, leaves the registry untouched), and the plugin
discovery triggered by constructing an `AbstractFactory` instance. -/
inductive FactoryOp where
  | register (name : String) (runner_class : PyClass)
  | construct (eps : List EntryPoint)

/-- Effect of one operation on the class-level registry. -/
def applyOp (runners : Registry) : FactoryOp → Registry
  | .register name runner_class =>
    match register_runner runners name runner_class with
    | .ok r2 => r2
    | .error _ => runners
  | .construct eps => loadExternalRunners runners eps

/-- Effect of a sequence of operations on the registry. -/
def applyOps (runners : Registry) (ops : List FactoryOp) : Registry :=
  ops.foldl applyOp runners

/-- The invariant the code actually maintains: every registry entry
passes the `issubclass(·, QueryRunner)` test. -/
def RegistryAllSubclasses (runners : Registry) : Prop :=
  ∀ n c, runners n = some c → c.isSubclassOfQueryRunner = true

theorem defaultRunners_allSub : RegistryAllSubclasses defaultRunners := by
  intro n c h
  unfold defaultRunners at h
  split at h
  · injection h with h2; subst h2; rfl
  · split at h
    · injection h with h2; subst h2; rfl
    · split at h
      · injection h with h2; subst h2; rfl
      · exact Option.noConfusion h

theorem dictSet_allSub (runners : Registry) (k : String) (v : PyClass)
    (hv : v.isSubclassOfQueryRunner = true)
    (hr : RegistryAllSubclasses runners) :
    RegistryAllSubclasses (dictSet k v runners) := by
  intro n c h
  unfold dictSet at h
  split at h
  · injection h with h2; subst h2; exact hv
  · exact hr n c h

theorem epClass_allSub (ep : EntryPoint) (c : PyClass)
    (h : epClass ep = some c) : c.isSubclassOfQueryRunner = true := by
  unfold epClass at h
  split at h
  · exact Option.noConfusion h
  · split at h
    · injection h with h2; subst h2; assumption
    · exact Option.noConfusion h

theorem loadExternalRunners_allSub (eps : List EntryPoint) (runners : Registry)
    (hr : RegistryAllSubclasses runners) :
    RegistryAllSubclasses (loadExternalRunners runners eps) := by
  induction eps generalizing runners with
  | nil => exact hr
  | cons ep rest ih =>
    refine ih (epStep runners ep) ?_
    rw [epStep_eq]
    cases hc : epClass ep with
    | none => exact hr
    | some c => exact dictSet_allSub runners ep.name c (epClass_allSub ep c hc) hr

theorem applyOp_allSub (runners : Registry) (op : FactoryOp)
    (hr : RegistryAllSubclasses runners) :
    RegistryAllSubclasses (applyOp runners op) := by
  cases op with
  | register name runner_class =>
    cases hs : runner_class.isSubclassOfQueryRunner with
    | false => simpa [applyOp, register_runner, hs] using hr
    | true =>
      have : applyOp runners (.register name runner_class) =
          dictSet name runner_class runners := by
        simp [applyOp, register_runner, hs]
      rw [this]
      exact dictSet_allSub runners name runner_class hs hr
  | construct eps => exact loadExternalRunners_allSub eps runners hr

theorem applyOps_allSub (ops : List FactoryOp) (runners : Registry)
    (hr : RegistryAllSubclasses runners) :
    RegistryAllSubclasses (applyOps runners ops) := by
  induction ops generalizing runners with
  | nil => exact hr
  | cons op rest ih => exact ih (applyOp runners op) (applyOp_allSub runners op hr)

/-- A Python class that inherits from `QueryRunner` but is still abstract
(it does not override `get_number`): `issubclass(·, QueryRunner)` holds,
registration is accepted, yet calling the class raises `TypeError`. -/
def BrokenRunnerClass : PyClass :=
  { isSubclassOfQueryRunner := true,
    construct :=
      .error (.typeError
        "Cannot instantiate abstract class BrokenRunner with abstract method get_number") }

/-- Counterexample to claim C2 as stated: registering the abstract
subclass `BrokenRunnerClass` under `"broken"` succeeds (only the
`issubclass` test is checked), the registry then contains that entry, and
`get_dao "broken"` fails at construction — so it is not true that every
entry in the registry maps to a constructor whose construction never
fails. -/
theorem c2_counterexample_construction_can_fail :
    register_runner defaultRunners "broken" BrokenRunnerClass =
      .ok (dictSet "broken" BrokenRunnerClass defaultRunners) ∧
    dictSet "broken" BrokenRunnerClass defaultRunners "broken" =
      some BrokenRunnerClass ∧
    get_dao (dictSet "broken" BrokenRunnerClass defaultRunners) "broken" =
      .error (.typeError
        "Cannot instantiate abstract class BrokenRunner with abstract method get_number") :=
  ⟨rfl, rfl, rfl⟩

/-- Claim C2, amended: after any sequence of operations starting from the
static default registry, every registry entry passes the
`issubclass(·, QueryRunner)` test; and for every registered name whose
class's zero-argument construction succeeds — in particular every
built-in backend — `get_dao` returns exactly that constructed runner.
(The code does not guarantee construction success for arbitrarily
registered subclasses; see the counterexample.) -/
theorem c2_registry_subclass_invariant (ops : List FactoryOp) :
    RegistryAllSubclasses (applyOps defaultRunners ops) ∧
    ∀ n runner_class inst,
      applyOps defaultRunners ops n = some runner_class →
      runner_class.construct = .ok inst →
      get_dao (applyOps defaultRunners ops) n = .ok inst := by
  refine ⟨applyOps_allSub ops defaultRunners defaultRunners_allSub, ?_⟩
  intro n runner_class inst h1 h2
  unfold get_dao
  rw [h1]
  exact h2

/-- Witness for the amended C2: on the untouched default registry,
`"mysql"` resolves and constructs without error. -/
theorem c2_registry_subclass_invariant_witness :
    get_dao (applyOps defaultRunners []) "mysql" = .ok mySQLRunnerInst :=
  (c2_registry_subclass_invariant []).2 "mysql" MySQLRunner mySQLRunnerInst rfl rfl

/-- Claim C4: registration is last-write-wins. Registering any
subclass-passing `c1` under `n` and then any subclass-passing `c2` under
the same `n` succeeds both times (the second registration is neither
ignored nor an error), leaves the registry mapping `n` to `c2`, and a
subsequent `get_dao n` returns exactly what calling `c2` produces. -/
theorem c4_last_write_wins (runners : Registry) (n : String) (c1 c2 : PyClass)
    (h1 : c1.isSubclassOfQueryRunner = true)
    (h2 : c2.isSubclassOfQueryRunner = true) :
    register_runner runners n c1 = .ok (dictSet n c1 runners) ∧
    register_runner (dictSet n c1 runners) n c2 =
      .ok (dictSet n c2 (dictSet n c1 runners)) ∧
    dictSet n c2 (dictSet n c1 runners) n = some c2 ∧
    get_dao (dictSet n c2 (dictSet n c1 runners)) n = c2.construct := by
  refine ⟨?_, ?_, ?_, ?_⟩
  · simp [register_runner, h1]
  · simp [register_runner, h2]
  · simp [dictSet]
  · simp [get_dao, dictSet]

/-- A distinguishable constructor for the C4 witness: instances return 10. -/
def alphaRunnerInst : Runner :=
  { get_number := fun configuration => .ok (10, configuration) }

/-- Registered class producing `alphaRunnerInst`. -/
def AlphaRunnerClass : PyClass :=
  { isSubclassOfQueryRunner := true, construct := .ok alphaRunnerInst }

/-- A second, distinguishable constructor for the C4 witness: instances
return 20. -/
def betaRunnerInst : Runner :=
  { get_number := fun configuration => .ok (20, configuration) }

/-- Registered class producing `betaRunnerInst`. -/
def BetaRunnerClass : PyClass :=
  { isSubclassOfQueryRunner := true, construct := .ok betaRunnerInst }

/-- Witness for C4: register `"x"` twice with distinguishable classes;
the second one wins and `get_dao` yields its product. -/
theorem c4_last_write_wins_witness :
    register_runner defaultRunners "x" AlphaRunnerClass =
      .ok (dictSet "x" AlphaRunnerClass defaultRunners) ∧
    register_runner (dictSet "x" AlphaRunnerClass defaultRunners) "x" BetaRunnerClass =
      .ok (dictSet "x" BetaRunnerClass (dictSet "x" AlphaRunnerClass defaultRunners)) ∧
    dictSet "x" BetaRunnerClass (dictSet "x" AlphaRunnerClass defaultRunners) "x" =
      some BetaRunnerClass ∧
    get_dao (dictSet "x" BetaRunnerClass (dictSet "x" AlphaRunnerClass defaultRunners))
      "x" = .ok betaRunnerInst :=
  c4_last_write_wins defaultRunners "x" AlphaRunnerClass BetaRunnerClass rfl rfl

/-- Following the specification's words, for comparison with the check
the code performs: a class "satisfies the Runner contract" when calling
it succeeds, producing a value that implements `get_number` (every
`Runner` value of this model carries `get_number`). The code's own check
in `register_runner` is `issubclass(runner_class, QueryRunner)`, which is
neither implied by nor implies this property. -/
def specSatisfiesRunnerContract (runner_class : PyClass) : Bool :=
  match runner_class.construct with
  | .ok _ => true
  | .error _ => false

/-- A duck-typed Python class: it does not inherit from `QueryRunner`
(so `issubclass` fails), yet calling it succeeds and the produced value
provides a working `get_number`. -/
def duckRunnerInst : Runner :=
  { get_number := fun configuration => .ok (42, configuration) }

/-- The duck-typed class value. -/
def DuckRunnerClass : PyClass :=
  { isSubclassOfQueryRunner := false, construct := .ok duckRunnerInst }

/-- Counterexample to claim C5 as stated: `DuckRunnerClass` satisfies the
Runner contract in the spec's sense (construction succeeds and the value
has an invocable `get_number`), yet `register_runner` rejects it with the
`TypeError` — so it is not true that the call succeeds for every
contract-satisfying argument; the code validates inheritance, not the
contract. -/
theorem c5_counterexample_contract_vs_subclass :
    specSatisfiesRunnerContract DuckRunnerClass = true ∧
    register_runner defaultRunners "duck" DuckRunnerClass =
      .error (PyError.typeError "Runner class must inherit from QueryRunner") :=
  ⟨rfl, rfl⟩

/-- Claim C5, amended: `register_runner` validates the `QueryRunner`
subclass relationship rather than the behavioural contract. For every
class failing `issubclass(·, QueryRunner)` the call fails fast with the
`TypeMismatch` error (`TypeError`) and the registry is left unchanged;
for every class passing the test the call succeeds and the entry is
present afterwards — regardless, in both directions, of whether the
class's construction would succeed. -/
theorem c5_register_validates_subclass (runners : Registry) (n : String)
    (runner_class : PyClass) :
    (runner_class.isSubclassOfQueryRunner = false →
      register_runner runners n runner_class = .error TypeMismatch ∧
      applyOp runners (.register n runner_class) = runners) ∧
    (runner_class.isSubclassOfQueryRunner = true →
      register_runner runners n runner_class = .ok (dictSet n runner_class runners) ∧
      dictSet n runner_class runners n = some runner_class) := by
  constructor
  · intro hs
    constructor
    · simp [register_runner, hs, TypeMismatch]
    · simp [applyOp, register_runner, hs]
  · intro hs
    constructor
    · simp [register_runner, hs]
    · simp [dictSet]

/-- Witness for the amended C5: the duck-typed class is rejected with
`TypeMismatch` leaving the registry unchanged, while the
subclass-passing `AlphaRunnerClass` is accepted and registered. -/
theorem c5_register_validates_subclass_witness :
    (register_runner defaultRunners "duck" DuckRunnerClass = .error TypeMismatch ∧
      applyOp defaultRunners (.register "duck" DuckRunnerClass) = defaultRunners) ∧
    (register_runner defaultRunners "alpha" AlphaRunnerClass =
        .ok (dictSet "alpha" AlphaRunnerClass defaultRunners) ∧
      dictSet "alpha" AlphaRunnerClass defaultRunners "alpha" =
        some AlphaRunnerClass) :=
  ⟨(c5_register_validates_subclass defaultRunners "duck" DuckRunnerClass).1 rfl,
   (c5_register_validates_subclass defaultRunners "alpha" AlphaRunnerClass).2 rfl⟩

/-! ## Object identity and shared class-level state (claims C7, C8, C9) -/

/-- The mutable program state the factory code touches: the class-level
dict `AbstractFactory._runners`, shared by every instance of the class,
plus an allocation counter modelling Python object identity (each object
created at runtime gets a fresh id). -/
structure FactoryState where
  runners : Registry
  nextObjId : Nat

/-- A constructed runner object: its identity and its behaviour. -/
structure RunnerInstance where
  objId : Nat
  runner : Runner

/-- `AbstractFactory.get_dao` with allocation made explicit: the dict
lookup (read-only), then `runner_class()`, which — when it succeeds —
allocates a brand-new object. The `runners` component of the state is
returned untouched on every path; only the allocation counter moves, and
only on successful construction. -/
def get_dao_s (runner_name : String) (s : FactoryState) :
    Except PyError RunnerInstance × FactoryState :=
  match s.runners runner_name with
  | none => (.error (UnknownBackend runner_name), s)
  | some runner_class =>
    match runner_class.construct with
    | .error e => (.error e, s)
    | .ok r => (.ok ⟨s.nextObjId, r⟩, { s with nextObjId := s.nextObjId + 1 })

/-- Behavioural equivalence of two `get_dao` outcomes: both raise the
same error, or both return instances with the same behaviour (the same
`get_number` function), object identity aside. -/
def behavEquiv : Except PyError RunnerInstance → Except PyError RunnerInstance → Prop
  | .ok i1, .ok i2 => i1.runner = i2.runner
  | .error e1, .error e2 => e1 = e2
  | _, _ => False

/-- Claim C7: no instance caching. Whenever `n` is registered with a
constructible class, each `get_dao` call runs the constructor afresh:
the first call returns a new object carrying the current allocation id,
the second call (from the state the first left) returns another new
object with the next id, and the two ids are distinct — never a shared
or pooled instance. -/
theorem c7_fresh_instance_per_get (s : FactoryState) (n : String)
    (runner_class : PyClass) (r : Runner)
    (h1 : s.runners n = some runner_class)
    (h2 : runner_class.construct = .ok r) :
    get_dao_s n s =
      (.ok ⟨s.nextObjId, r⟩, { s with nextObjId := s.nextObjId + 1 }) ∧
    get_dao_s n { s with nextObjId := s.nextObjId + 1 } =
      (.ok ⟨s.nextObjId + 1, r⟩, { s with nextObjId := s.nextObjId + 2 }) ∧
    (RunnerInstance.mk s.nextObjId r).objId ≠
      (RunnerInstance.mk (s.nextObjId + 1) r).objId := by
  refine ⟨?_, ?_, ?_⟩
  · simp [get_dao_s, h1, h2]
  · simp [get_dao_s, h1, h2]
  · simp

/-- Witness for C7 at the default registry with allocation counter 0:
two successive `get_dao "mysql"` calls yield distinct fresh objects. -/
theorem c7_fresh_instance_per_get_witness :
    get_dao_s "mysql" ⟨defaultRunners, 0⟩ =
      (.ok ⟨0, mySQLRunnerInst⟩, ⟨defaultRunners, 1⟩) ∧
    get_dao_s "mysql" ⟨defaultRunners, 1⟩ =
      (.ok ⟨1, mySQLRunnerInst⟩, ⟨defaultRunners, 2⟩) ∧
    (RunnerInstance.mk 0 mySQLRunnerInst).objId ≠
      (RunnerInstance.mk 1 mySQLRunnerInst).objId :=
  c7_fresh_instance_per_get ⟨defaultRunners, 0⟩ "mysql" MySQLRunner mySQLRunnerInst
    rfl rfl

/-- Claim C8: lookup is read-only and idempotent. For every state and
every name (registered or not), a `get_dao` call leaves the registry
mapping exactly as it was; so does a second call from the resulting
state; and the two calls' outcomes are behaviourally equivalent — the
same error, or fresh instances with identical behaviour. -/
theorem c8_get_dao_read_only_idempotent (s : FactoryState) (n : String) :
    (get_dao_s n s).2.runners = s.runners ∧
    (get_dao_s n (get_dao_s n s).2).2.runners = s.runners ∧
    behavEquiv (get_dao_s n s).1 (get_dao_s n (get_dao_s n s).2).1 := by
  cases h : s.runners n with
  | none =>
    refine ⟨?_, ?_, ?_⟩ <;> simp [get_dao_s, h, behavEquiv]
  | some runner_class =>
    cases hc : runner_class.construct with
    | error e =>
      refine ⟨?_, ?_, ?_⟩ <;> simp [get_dao_s, h, hc, behavEquiv]
    | ok r =>
      refine ⟨?_, ?_, ?_⟩ <;> simp [get_dao_s, h, hc, behavEquiv]

/-- An `AbstractFactory` instance. The class keeps no per-instance
registry: `self._runners` resolves to the class attribute, so an
instance value is nothing but its object identity. -/
structure AbstractFactoryObj where
  objId : Nat

/-- Translation of `AbstractFactory.__init__`: constructing an instance
allocates it and runs `self._load_external_runners()`, which writes
through to the shared class-level dict. -/
def mkAbstractFactory (eps : List EntryPoint) (s : FactoryState) :
    AbstractFactoryObj × FactoryState :=
  (⟨s.nextObjId⟩,
   { runners := loadExternalRunners s.runners eps, nextObjId := s.nextObjId + 1 })

/-- The classmethod `register_runner` acting on the shared state: it
mutates `cls._runners`, the one dict all instances read. -/
def register_runner_cls (name : String) (runner_class : PyClass)
    (s : FactoryState) : Except PyError FactoryState :=
  match register_runner s.runners name runner_class with
  | .ok r => .ok { s with runners := r }
  | .error e => .error e

/-- `get_dao` invoked on a particular `AbstractFactory` instance: the
body reads `self._runners`, which is the class attribute, so the result
does not depend on which instance the method is called on. -/
def get_dao_via (_self : AbstractFactoryObj) (s : FactoryState)
    (runner_name : String) : Except PyError Runner :=
  get_dao s.runners runner_name

/-- Claim C9: the registry is class-level shared state, not
per-instance. A `register_runner(n, cls)` call makes `n` resolvable via
`get_dao` on every `AbstractFactory` instance whatsoever — in particular
on instances whose ids were minted before the registration; and plugin
loading triggered by constructing any further instance likewise makes
the loaded names resolvable on every pre-existing instance. -/
theorem c9_class_level_registry_shared (w1 : FactoryState) (n : String)
    (runner_class : PyClass) (eps : List EntryPoint) (m : String) (c2 : PyClass)
    (h : runner_class.isSubclassOfQueryRunner = true)
    (h2 : lastValidClass eps m = some c2) :
    register_runner_cls n runner_class w1 =
      .ok ⟨dictSet n runner_class w1.runners, w1.nextObjId⟩ ∧
    (∀ g : AbstractFactoryObj,
      get_dao_via g ⟨dictSet n runner_class w1.runners, w1.nextObjId⟩ n =
        runner_class.construct) ∧
    (∀ g : AbstractFactoryObj,
      get_dao_via g
        (mkAbstractFactory eps ⟨dictSet n runner_class w1.runners, w1.nextObjId⟩).2
        m = c2.construct) := by
  refine ⟨?_, ?_, ?_⟩
  · simp [register_runner_cls, register_runner, h]
  · intro g
    simp [get_dao_via, get_dao, dictSet]
  · intro g
    show get_dao (loadExternalRunners (dictSet n runner_class w1.runners) eps) m =
      c2.construct
    unfold get_dao
    rw [loadExternalRunners_lookup eps (dictSet n runner_class w1.runners) m, h2]

/-- Witness for C9: register `"alpha"` on the shared class state, then
load a plugin by constructing a further factory; the instance with the
oldest id (0) resolves both names. -/
theorem c9_class_level_registry_shared_witness :
    register_runner_cls "alpha" AlphaRunnerClass ⟨defaultRunners, 0⟩ =
      .ok ⟨dictSet "alpha" AlphaRunnerClass defaultRunners, 0⟩ ∧
    get_dao_via ⟨0⟩ ⟨dictSet "alpha" AlphaRunnerClass defaultRunners, 0⟩ "alpha" =
      .ok alphaRunnerInst ∧
    get_dao_via ⟨0⟩
      (mkAbstractFactory [validEp]
        ⟨dictSet "alpha" AlphaRunnerClass defaultRunners, 0⟩).2 "goodplugin" =
      .ok pluginRunnerInst := by
  obtain ⟨a, b, c⟩ :=
    c9_class_level_registry_shared ⟨defaultRunners, 0⟩ "alpha" AlphaRunnerClass
      [validEp] "goodplugin" PluginRunnerClass rfl rfl
  exact ⟨a, b ⟨0⟩, c ⟨0⟩⟩
